import Mathlib

/-!
Verification of the export safety state machine of the ableton-mcp
repository (src/gui_automation.py, src/core.py, src/osc_client.py,
src/cli.py), as a shallow embedding in Lean 4.

Window titles and other Python strings are modelled as `List Char`;
Python's substring test `needle in hay` is `needle <:+: hay`
(`List.IsInfix`).  Each AppleScript invocation that reads the front
window title consumes the next value of an oracle `titles : Nat → Str`;
likewise for the frontmost-application reads.  Keystrokes and window
inspections are recorded in an event trace so that trace invariants
(e.g. "select-all only after a safe dialog check") can be stated.
Fallible Python code is modelled with `Except`; a Python exception that
is never caught shows up as an `.error` value of the modelled function.
-/

abbrev Str := List Char

/-- Python `needle in hay` on strings, as a Bool. -/
def containsB (hay needle : Str) : Bool := decide (needle <:+: hay)

/-- Single quote character (used in Python f-string messages). -/
def squo : Char := Char.ofNat 39

/-- `SAVE_DIALOG_NAME` from gui_automation.py. -/
def saveNeedle : Str := "Save".data

/-- The constant named `EXPORT_DIALOG_` + `PREFIX` in gui_automation.py. -/
def exportNeedle : Str := "Export".data

/-- `SAFE_DIALOG_WINDOWS` from gui_automation.py (a frozenset; order is
irrelevant because it is only consumed by `any`). -/
def SAFE_DIALOG_WINDOWS : List Str :=
  ["Save".data, "Export Audio/Video".data, "Export".data]

/-- `"Save" in t` (window-title test used throughout gui_automation.py). -/
def hasSave (t : Str) : Bool := containsB t saveNeedle

/-- `"Export" in t` (window-title test used throughout gui_automation.py). -/
def hasExport (t : Str) : Bool := containsB t exportNeedle

/-- The `is_safe` flag computed by `verify_in_dialog`:
`any(safe in window_name for safe in SAFE_DIALOG_WINDOWS)`. -/
def is_safe_of_title (t : Str) : Bool :=
  SAFE_DIALOG_WINDOWS.any (fun needle => containsB t needle)

/-- Events recorded by the automation primitives: window/application
inspections and keystrokes. -/
inductive Event where
  | activate
  | checkApp (app : Str)
  | keyCombo (desc : Str)
  | enter
  | escape
  | check (title : Str)
  | selectAll
  | typeKeys (s : Str)
  | tab
  | tripleClick
  | clickButton
  deriving DecidableEq

/-- Oracle for the GUI environment: results of the successive
AppleScript calls made during one export attempt. -/
structure Env where
  /-- result of the n-th `activate_ableton()` call -/
  activateOk : Nat → Bool
  /-- the n-th frontmost-application read (`_check_frontmost_app`) -/
  frontApp : Nat → Str
  /-- result of `open_export_dialog()` -/
  openOk : Bool
  /-- the n-th front-window-title read -/
  titles : Nat → Str
  /-- result flag of the stop-audio confirmation probe script -/
  confirmOk : Bool
  /-- stdout of the stop-audio confirmation probe script -/
  confirmText : Str
  /-- whether the Quartz module imports (in `_set_render_range_via_clicks`) -/
  quartzOk : Bool
  /-- the render-length slider read back after typing: `none` models a
  failed/empty/unparsable read, `some v` a value parsed by `float()` -/
  sliderRead : Option Rat

/-- `verify_in_dialog()` from gui_automation.py: reads the front window
title (the `c`-th title read) and computes the safety flag from
`SAFE_DIALOG_WINDOWS`.  Returns `((is_safe, window_name), c + 1, trace)`. -/
def verify_in_dialog (env : Env) (c : Nat) : (Bool × Str) × Nat × List Event :=
  let t := env.titles c
  ((is_safe_of_title t, t), c + 1, [Event.check t])

/-- C2: the dialog verifier's safety flag is true iff the window title
contains the substring "Save" or the substring "Export"; in particular it
is false for the empty title. -/
theorem c2_is_safe_iff_save_or_export :
    (∀ env c, ((verify_in_dialog env c).1.1 = true) ↔
      (saveNeedle <:+: env.titles c ∨ exportNeedle <:+: env.titles c)) ∧
    is_safe_of_title [] = false := by
  constructor
  · intro env c
    show (is_safe_of_title (env.titles c) = true) ↔ _
    set t := env.titles c with ht
    unfold is_safe_of_title SAFE_DIALOG_WINDOWS containsB
    simp only [List.any_cons, List.any_nil, Bool.or_false, Bool.or_eq_true,
      decide_eq_true_eq]
    constructor
    · rintro (h | h | h)
      · exact Or.inl h
      · refine Or.inr ?_
        have hpre : "Export".data <+: "Export Audio/Video".data := by decide
        exact hpre.isInfix.trans h
      · exact Or.inr h
    · rintro (h | h)
      · exact Or.inl h
      · exact Or.inr (Or.inr h)
  · decide

/-- Errors modelling the Python exceptions raised inside
gui_automation.py (`AbletonActivationError`, `DialogVerificationError`,
`ExportError`). -/
inductive GuiErr where
  | activationFailed
  | openDialogFailed
  | expectedExportDialog (found : Str)
  | saveStillOpen (waited : Nat)
  | exportTimedOut (maxWait : Nat) (dialog : Str)
  | exportTimedOutLive12 (maxWait : Nat)
  deriving DecidableEq

/-- Decimal rendering of a Nat (Python f-string `{n}`). -/
def natStr (n : Nat) : Str := (Nat.repr n).data

/-- `str(e)` for each modelled exception: the f-string messages of
gui_automation.py. -/
def errMsg : GuiErr → Str
  | .activationFailed => "Failed to activate Ableton Live".data
  | .openDialogFailed => "Failed to open export dialog".data
  | .expectedExportDialog t =>
      "Expected Export dialog, found: ".data ++ squo :: (t ++ [squo])
  | .saveStillOpen w =>
      "Save dialog still open after ".data ++ natStr w ++
        "s - export may have failed".data
  | .exportTimedOut m t =>
      "Export timed out after ".data ++ natStr m ++ "s - dialog: ".data ++
        squo :: (t ++ [squo])
  | .exportTimedOutLive12 m =>
      "Export timed out after ".data ++ natStr m ++ "s".data

/-- `select_text_in_field()`: the AppleScript reads the front window name
and issues Cmd+A only when it is exactly "Save" or contains "Export";
otherwise the script errors out (so `run_applescript` returns False). -/
def select_text_in_field (env : Env) (c : Nat) : Bool × Nat × List Event :=
  let t := env.titles c
  if t = "Save".data ∨ hasExport t = true then
    (true, c + 1, [Event.check t, Event.selectAll])
  else
    (false, c + 1, [Event.check t])

/-- `_type_filename_in_save_dialog()`: the AppleScript re-reads the front
window name, errors unless it is exactly "Save", and only then issues
Cmd+A followed by typing the filename. -/
def _type_filename_in_save_dialog (env : Env) (filename : Str) (c : Nat) :
    Bool × Nat × List Event :=
  let t := env.titles c
  if t = "Save".data then
    (true, c + 1, [Event.check t, Event.selectAll, Event.typeKeys filename])
  else
    (false, c + 1, [Event.check t])

/-- Messages returned by the render-range setters, carrying the same data
as the Python f-strings. -/
inductive RangeMsg where
  | quartzMissing
  | notInExportDialog (found : Str)
  | setOk (verified : Rat)
  | notSetCorrectly (expected : Int) (got : Rat)
  | setUnverified (lengthBars : Int)
  deriving DecidableEq

/-- `_set_render_range_via_clicks()`: triple-click the render-length
field, Cmd+A, type the new value, Tab to commit, then read the slider
value back and compare with tolerance 0.5.  A failed/empty/unparsable
read-back falls through to an "unverified" success.  (The click
coordinates obtained from the slider-position script affect only where
the clicks land, not the control flow, and are not modelled;
`start_bar` is accepted but never used by the Python code.) -/
def _set_render_range_via_clicks (env : Env) (_startBar lengthBars : Int) (c : Nat) :
    (Bool × RangeMsg) × Nat × List Event :=
  if env.quartzOk = false then ((false, RangeMsg.quartzMissing), c, [])
  else
    let evs : List Event :=
      [Event.tripleClick, Event.selectAll,
       Event.typeKeys (toString lengthBars).data, Event.tab]
    match env.sliderRead with
    | some v =>
        if |v - (lengthBars : Rat)| < 1/2 then
          ((true, RangeMsg.setOk v), c, evs)
        else
          ((false, RangeMsg.notSetCorrectly lengthBars v), c, evs)
    | none => ((true, RangeMsg.setUnverified lengthBars), c, evs)

/-- `set_export_render_range()`: verifies via `verify_in_dialog` that the
front window title contains "Export" before any click/keystroke, then
delegates to `_set_render_range_via_clicks`. -/
def set_export_render_range (env : Env) (startBar lengthBars : Int) (c : Nat) :
    (Bool × RangeMsg) × Nat × List Event :=
  let t := env.titles c
  if hasExport t = false then
    ((false, RangeMsg.notInExportDialog t), c + 1, [Event.check t])
  else
    let r := _set_render_range_via_clicks env startBar lengthBars (c + 1)
    (r.1, r.2.1, Event.check t :: r.2.2)

/-- `select_all_and_delete()`: permanently disabled; raises RuntimeError
before issuing any keystroke. -/
def selectAllDisabledMsg : Str :=
  ("select_all_and_delete() is disabled - it can delete tracks. " ++
   "Use select_text_in_field() instead.").data

/-- Errors modelling uncaught Python exceptions of the core layer. -/
inductive PyExc where
  | typeError
  | runtimeError (msg : Str)
  deriving DecidableEq

/-- `select_all_and_delete()` from gui_automation.py: always raises
RuntimeError, producing no keystroke events at all. -/
def select_all_and_delete : Except PyExc Bool × List Event :=
  (Except.error (PyExc.runtimeError selectAllDisabledMsg), [])

/-- `_activate_and_verify`'s retry loop (`for attempt in range(5)`): each
attempt calls `activate_ableton()` (raising `AbletonActivationError` when
that call fails) and then checks the frontmost application; on "Live" it
returns.  When all attempts are exhausted it prints a warning and
proceeds without raising. -/
def _activate_loop (env : Env) (a : Nat) : Nat → Except GuiErr Unit × Nat × List Event
  | 0 => (Except.ok (), a, [])
  | remaining + 1 =>
      if env.activateOk a = false then
        (Except.error GuiErr.activationFailed, a + 1, [Event.activate])
      else
        let app := env.frontApp a
        if app = "Live".data then
          (Except.ok (), a + 1, [Event.activate, Event.checkApp app])
        else
          let r := _activate_loop env (a + 1) remaining
          (r.1, r.2.1, Event.activate :: Event.checkApp app :: r.2.2)

/-- `_activate_and_verify()` from gui_automation.py (max_retries = 5). -/
def _activate_and_verify (env : Env) (a : Nat) : Except GuiErr Unit × Nat × List Event :=
  _activate_loop env a 5

/-- `_open_and_verify_export_dialog()`: sends Cmd+Shift+R, re-reads the
front window title, and on a title not containing "Export" runs
`_abort_and_escape()` (3 Escape presses) before raising
`DialogVerificationError` naming the observed title. -/
def _open_and_verify_export_dialog (env : Env) (c : Nat) :
    Except GuiErr Unit × Nat × List Event :=
  if env.openOk = false then
    (Except.error GuiErr.openDialogFailed, c, [Event.keyCombo "cmd-shift-r".data])
  else
    let t := env.titles c
    if hasExport t = true then
      (Except.ok (), c + 1, [Event.keyCombo "cmd-shift-r".data, Event.check t])
    else
      (Except.error (GuiErr.expectedExportDialog t), c + 1,
        [Event.keyCombo "cmd-shift-r".data, Event.check t,
         Event.escape, Event.escape, Event.escape])

/-- The polling loop of `_wait_for_export_completion`, with
`fuel = max_wait - waited`.  Each poll reads the next title; "Save"
fails immediately, a title without "Export" succeeds, otherwise poll
again.  When the budget is exhausted one final read decides between a
timeout error (title still has "Save" or "Export") and success. -/
def _wait_loop (env : Env) (maxWait : Nat) : Nat → Nat → Nat → Except GuiErr Unit × Nat × List Event
  | _waited, c, 0 =>
      let t := env.titles c
      if hasSave t = true ∨ hasExport t = true then
        (Except.error (GuiErr.exportTimedOut maxWait t), c + 1, [Event.check t])
      else
        (Except.ok (), c + 1, [Event.check t])
  | waited, c, fuel + 1 =>
      let t := env.titles c
      if hasSave t = true then
        (Except.error (GuiErr.saveStillOpen (waited + 1)), c + 1, [Event.check t])
      else if hasExport t = true then
        let r := _wait_loop env maxWait (waited + 1) (c + 1) fuel
        (r.1, r.2.1, Event.check t :: r.2.2)
      else
        (Except.ok (), c + 1, [Event.check t])

/-- `_wait_for_export_completion(max_wait=120)` from gui_automation.py. -/
def _wait_for_export_completion (env : Env) (c : Nat) (maxWait : Nat := 120) :
    Except GuiErr Unit × Nat × List Event :=
  _wait_loop env maxWait 0 c maxWait

/-- The polling loop of `_wait_for_export_completion_live12`: success as
soon as the title has neither "Export" nor "Save"; timeout error when the
budget is exhausted (no extra final read in this variant). -/
def _wait12_loop (env : Env) (maxWait : Nat) : Nat → Nat → Except GuiErr Unit × Nat × List Event
  | c, 0 => (Except.error (GuiErr.exportTimedOutLive12 maxWait), c, [])
  | c, fuel + 1 =>
      let t := env.titles c
      if hasExport t = false ∧ hasSave t = false then
        (Except.ok (), c + 1, [Event.check t])
      else
        let r := _wait12_loop env maxWait (c + 1) fuel
        (r.1, r.2.1, Event.check t :: r.2.2)

/-- `_wait_for_export_completion_live12(max_wait=120)`. -/
def _wait_for_export_completion_live12 (env : Env) (c : Nat) (maxWait : Nat := 120) :
    Except GuiErr Unit × Nat × List Event :=
  _wait12_loop env maxWait c maxWait

/-- `_handle_export_confirmation_and_wait()`: probes the dialog's static
text; if the probe succeeds and its output contains "confirmation" it
clicks the Proceed button, then waits for completion (Live-12 variant,
max_wait = 120). -/
def _handle_export_confirmation_and_wait (env : Env) (c : Nat) :
    Except GuiErr Unit × Nat × List Event :=
  let pre : List Event :=
    if env.confirmOk = true ∧ containsB env.confirmText "confirmation".data = true then
      [Event.clickButton]
    else []
  let r := _wait_for_export_completion_live12 env c 120
  (r.1, r.2.1, pre ++ r.2.2)

/-- The body of `safe_export_with_filename` (everything inside its
`try`), returning the raised exception, the final title/app read
counters, and the event trace. -/
def safe_export_body (env : Env) (filename : Str) (outputFolder : Option Str) :
    Except GuiErr Unit × Nat × Nat × List Event :=
  match _activate_and_verify env 0 with
  | (Except.error e, a1, tr1) => (Except.error e, 0, a1, tr1)
  | (Except.ok _, a1, tr1) =>
    match _open_and_verify_export_dialog env 0 with
    | (Except.error e, c1, tr2) => (Except.error e, c1, a1, tr1 ++ tr2)
    | (Except.ok _, c1, tr2) =>
      let t := env.titles c1
      let c2 := c1 + 1
      let trHead := tr1 ++ tr2 ++ [Event.enter, Event.check t]
      if hasSave t = true then
        let trFolder : List Event :=
          match outputFolder with
          | some p => [Event.keyCombo "cmd-shift-g".data, Event.typeKeys p, Event.enter]
          | none => []
        let rT := _type_filename_in_save_dialog env filename c2
        let rW := _wait_for_export_completion env rT.2.1 120
        (rW.1, rW.2.1, a1, trHead ++ trFolder ++ rT.2.2 ++ [Event.enter] ++ rW.2.2)
      else if hasExport t = false then
        let rW := _wait_for_export_completion_live12 env c2 120
        (rW.1, rW.2.1, a1, trHead ++ rW.2.2)
      else
        let rW := _handle_export_confirmation_and_wait env c2
        (rW.1, rW.2.1, a1, trHead ++ rW.2.2)

/-- The success message `f"Export complete: {filename}.wav"`. -/
def exportCompleteMsg (filename : Str) : Str :=
  "Export complete: ".data ++ filename ++ ".wav".data

/-- `safe_export_with_filename()` from gui_automation.py: runs the body;
every exception the body raises is caught, `_abort_and_escape()` (3
Escape presses) runs, and `(False, str(e))` is returned. -/
def safe_export_with_filename (env : Env) (filename : Str)
    (outputFolder : Option Str := none) : (Bool × Str) × List Event :=
  match safe_export_body env filename outputFolder with
  | (Except.ok _, _, _, tr) => ((true, exportCompleteMsg filename), tr)
  | (Except.error e, _, _, tr) =>
      ((false, errMsg e), tr ++ [Event.escape, Event.escape, Event.escape])

/-- Is this event the Cmd+A select-all keystroke? -/
def isSelectAll : Event → Bool
  | Event.selectAll => true
  | _ => false

/-- A trace free of select-all keystrokes. -/
def noSelectAll (tr : List Event) : Bool := tr.all (fun e => !isSelectAll e)

/-- Number of Escape presses in a trace. -/
def countEscapes : List Event → Nat
  | [] => 0
  | Event.escape :: tr => countEscapes tr + 1
  | _ :: tr => countEscapes tr

/-- A window title whose classification permits destructive shortcuts:
it contains "Save" (SAVE) or "Export" (EXPORT). -/
def safeTitle (t : Str) : Bool := hasSave t || hasExport t

/-- Walk a trace remembering the most recent front-window-title check;
every select-all must be covered by a preceding check whose title is
safe, with no other check in between. -/
def guardedGo : Option Str → List Event → Bool
  | _, [] => true
  | _, Event.check t :: rest => guardedGo (some t) rest
  | last, Event.selectAll :: rest =>
      (match last with
       | some t => safeTitle t
       | none => false) && guardedGo last rest
  | last, _ :: rest => guardedGo last rest

/-- The most recent checked title after traversing a trace. -/
def lastCheck : Option Str → List Event → Option Str
  | l, [] => l
  | _, Event.check t :: rest => lastCheck (some t) rest
  | l, _ :: rest => lastCheck l rest

/-- Every select-all in the trace is immediately preceded (among checks)
by a check of a safe title. -/
def selectAllGuarded (tr : List Event) : Bool := guardedGo none tr

theorem lastCheck_append (l : Option Str) (xs ys : List Event) :
    lastCheck l (xs ++ ys) = lastCheck (lastCheck l xs) ys := by
  induction xs generalizing l with
  | nil => rfl
  | cons e rest ih => cases e <;> simp [lastCheck, ih]

theorem guardedGo_append (l : Option Str) (xs ys : List Event) :
    guardedGo l (xs ++ ys) = (guardedGo l xs && guardedGo (lastCheck l xs) ys) := by
  induction xs generalizing l with
  | nil => simp [guardedGo, lastCheck]
  | cons e rest ih => cases e <;> simp [guardedGo, lastCheck, ih, Bool.and_assoc]

/-- Guarded with respect to every possible preceding check. -/
def allGuarded (tr : List Event) : Prop := ∀ l, guardedGo l tr = true

theorem allGuarded_append {xs ys : List Event}
    (hx : allGuarded xs) (hy : allGuarded ys) : allGuarded (xs ++ ys) := by
  intro l
  rw [guardedGo_append, hx l, hy (lastCheck l xs)]
  rfl


theorem noSelectAll_cons (e : Event) (tr : List Event) :
    noSelectAll (e :: tr) = (!isSelectAll e && noSelectAll tr) := rfl

theorem noSelectAll_append (xs ys : List Event) :
    noSelectAll (xs ++ ys) = (noSelectAll xs && noSelectAll ys) := by
  simp [noSelectAll, List.all_append]

theorem allGuarded_of_noSelectAll {tr : List Event}
    (h : noSelectAll tr = true) : allGuarded tr := by
  induction tr with
  | nil => intro l; rfl
  | cons e rest ih =>
      rw [noSelectAll_cons, Bool.and_eq_true] at h
      have hrest : noSelectAll rest = true := h.2
      intro l
      cases e with
      | check t => exact ih hrest (some t)
      | selectAll => simp [isSelectAll] at h
      | activate => exact ih hrest l
      | checkApp s => exact ih hrest l
      | keyCombo s => exact ih hrest l
      | enter => exact ih hrest l
      | escape => exact ih hrest l
      | typeKeys s => exact ih hrest l
      | tab => exact ih hrest l
      | tripleClick => exact ih hrest l
      | clickButton => exact ih hrest l

theorem activate_loop_noSelectAll (env : Env) :
    ∀ r a, noSelectAll ((_activate_loop env a r).2.2) = true := by
  intro r
  induction r with
  | zero => intro a; rfl
  | succ n ih =>
      intro a
      unfold _activate_loop
      dsimp only
      split
      · rfl
      · split
        · rfl
        · rw [noSelectAll_cons, noSelectAll_cons, ih (a + 1)]
          rfl

theorem open_dialog_noSelectAll (env : Env) (c : Nat) :
    noSelectAll ((_open_and_verify_export_dialog env c).2.2) = true := by
  unfold _open_and_verify_export_dialog
  dsimp only
  split
  · rfl
  · split <;> rfl

theorem wait_loop_noSelectAll (env : Env) (maxWait : Nat) :
    ∀ fuel waited c, noSelectAll ((_wait_loop env maxWait waited c fuel).2.2) = true := by
  intro fuel
  induction fuel with
  | zero =>
      intro waited c
      unfold _wait_loop
      dsimp only
      split <;> rfl
  | succ n ih =>
      intro waited c
      unfold _wait_loop
      dsimp only
      split
      · rfl
      · split
        · rw [noSelectAll_cons, ih (waited + 1) (c + 1)]
          rfl
        · rfl

theorem wait12_loop_noSelectAll (env : Env) (maxWait : Nat) :
    ∀ fuel c, noSelectAll ((_wait12_loop env maxWait c fuel).2.2) = true := by
  intro fuel
  induction fuel with
  | zero => intro c; rfl
  | succ n ih =>
      intro c
      unfold _wait12_loop
      dsimp only
      split
      · rfl
      · rw [noSelectAll_cons, ih (c + 1)]
        rfl

theorem handle_confirmation_noSelectAll (env : Env) (c : Nat) :
    noSelectAll ((_handle_export_confirmation_and_wait env c).2.2) = true := by
  unfold _handle_export_confirmation_and_wait
  dsimp only
  rw [noSelectAll_append]
  have h12 : noSelectAll ((_wait_for_export_completion_live12 env c 120).2.2) = true :=
    wait12_loop_noSelectAll env 120 120 c
  rw [h12]
  split <;> rfl

theorem type_filename_allGuarded (env : Env) (fn : Str) (c : Nat) :
    allGuarded ((_type_filename_in_save_dialog env fn c).2.2) := by
  unfold _type_filename_in_save_dialog
  dsimp only
  split
  · rename_i h
    intro l
    show guardedGo (some (env.titles c)) [Event.selectAll, Event.typeKeys fn] = true
    rw [h]
    have hs : safeTitle "Save".data = true := by decide
    simp [guardedGo, hs]
  · intro l
    rfl

theorem clicks_trace (env : Env) (sB lB : Int) (c : Nat) :
    (_set_render_range_via_clicks env sB lB c).2.2 = [] ∨
    (_set_render_range_via_clicks env sB lB c).2.2 =
      [Event.tripleClick, Event.selectAll,
       Event.typeKeys (toString lB).data, Event.tab] := by
  unfold _set_render_range_via_clicks
  dsimp only
  split
  · exact Or.inl rfl
  · rcases env.sliderRead with _ | v
    · exact Or.inr rfl
    · dsimp only
      split <;> exact Or.inr rfl

theorem safe_export_body_guarded (env : Env) (fn : Str) (folder : Option Str) :
    allGuarded (safe_export_body env fn folder).2.2.2 := by
  rcases h1 : _activate_and_verify env 0 with ⟨r1, a1, tr1⟩
  have htr1 : noSelectAll tr1 = true := by
    have h := activate_loop_noSelectAll env 5 0
    rw [show _activate_loop env 0 5 = _activate_and_verify env 0 from rfl, h1] at h
    exact h
  rcases h2 : _open_and_verify_export_dialog env 0 with ⟨r2, c1, tr2⟩
  have htr2 : noSelectAll tr2 = true := by
    have h := open_dialog_noSelectAll env 0
    rw [h2] at h
    exact h
  unfold safe_export_body
  rw [h1]
  cases r1 with
  | error e => exact allGuarded_of_noSelectAll htr1
  | ok u =>
    dsimp only
    rw [h2]
    cases r2 with
    | error e =>
        dsimp only
        exact allGuarded_of_noSelectAll
          (by rw [noSelectAll_append, htr1, htr2]; rfl)
    | ok u2 =>
      dsimp only
      have hhead : allGuarded (tr1 ++ tr2 ++ [Event.enter, Event.check (env.titles c1)]) := by
        refine allGuarded_append (allGuarded_append ?_ ?_) ?_
        · exact allGuarded_of_noSelectAll htr1
        · exact allGuarded_of_noSelectAll htr2
        · exact allGuarded_of_noSelectAll rfl
      split
      · -- Save-dialog branch
        dsimp only
        cases folder with
        | none =>
            dsimp only
            refine allGuarded_append (allGuarded_append (allGuarded_append
              (allGuarded_append hhead ?_) ?_) ?_) ?_
            · exact allGuarded_of_noSelectAll rfl
            · exact type_filename_allGuarded env fn (c1 + 1)
            · exact allGuarded_of_noSelectAll rfl
            · exact allGuarded_of_noSelectAll
                (wait_loop_noSelectAll env 120 120 0
                  (_type_filename_in_save_dialog env fn (c1 + 1)).2.1)
        | some p =>
            dsimp only
            refine allGuarded_append (allGuarded_append (allGuarded_append
              (allGuarded_append hhead ?_) ?_) ?_) ?_
            · exact allGuarded_of_noSelectAll rfl
            · exact type_filename_allGuarded env fn (c1 + 1)
            · exact allGuarded_of_noSelectAll rfl
            · exact allGuarded_of_noSelectAll
                (wait_loop_noSelectAll env 120 120 0
                  (_type_filename_in_save_dialog env fn (c1 + 1)).2.1)
      · split
        · -- direct-export branch (no Save dialog)
          dsimp only
          exact allGuarded_append hhead (allGuarded_of_noSelectAll
            (wait12_loop_noSelectAll env 120 120 (c1 + 1)))
        · -- sub-confirmation branch
          dsimp only
          exact allGuarded_append hhead (allGuarded_of_noSelectAll
            (handle_confirmation_noSelectAll env (c1 + 1)))

/-- C1: in every execution of the export workflow — the verified export
entry point `safe_export_with_filename`, the render-range setter
`set_export_render_range`, and the field helpers `select_text_in_field`
and `_type_filename_in_save_dialog` — a select-all (Cmd+A) keystroke is
only issued when the front-window-title check immediately preceding it
observed a title containing "Save" or "Export" (classification SAVE or
EXPORT); no code path issues a select-all after a check that observed an
empty (NONE) or unrecognised (UNKNOWN) title. -/
theorem c1_select_all_only_after_safe_check
    (env : Env) (fn : Str) (folder : Option Str) (sB lB : Int) (c : Nat) :
    selectAllGuarded (safe_export_with_filename env fn folder).2 = true ∧
    selectAllGuarded (set_export_render_range env sB lB c).2.2 = true ∧
    selectAllGuarded (select_text_in_field env c).2.2 = true ∧
    selectAllGuarded (_type_filename_in_save_dialog env fn c).2.2 = true := by
  refine ⟨?_, ?_, ?_, ?_⟩
  · unfold safe_export_with_filename
    have hbody := safe_export_body_guarded env fn folder
    rcases h : safe_export_body env fn folder with ⟨r, c', a', tr⟩
    rw [h] at hbody
    cases r with
    | ok u => exact hbody none
    | error e =>
        have hesc : allGuarded [Event.escape, Event.escape, Event.escape] :=
          allGuarded_of_noSelectAll rfl
        exact allGuarded_append hbody hesc none
  · unfold set_export_render_range
    dsimp only
    split
    · rfl
    · rename_i h
      rw [Bool.not_eq_false] at h
      have hsafe : safeTitle (env.titles c) = true := by
        simp [safeTitle, h]
      dsimp only
      show guardedGo none (Event.check (env.titles c) ::
        (_set_render_range_via_clicks env sB lB (c + 1)).2.2) = true
      rcases clicks_trace env sB lB (c + 1) with htr | htr <;>
        simp [guardedGo, htr, hsafe]
  · unfold select_text_in_field
    dsimp only
    split
    · rename_i h
      have hsafe : safeTitle (env.titles c) = true := by
        rcases h with h | h
        · rw [h]; decide
        · simp [safeTitle, h]
      simp [selectAllGuarded, guardedGo, hsafe]
    · rfl
  · exact type_filename_allGuarded env fn c none

/-- A poll that neither fails (no "Save") nor succeeds (has "Export"). -/
theorem wait_loop_shift (env : Env) (maxWait : Nat) :
    ∀ k fuel waited c, k ≤ fuel →
    (∀ j, j < k → hasSave (env.titles (c + j)) = false ∧
                  hasExport (env.titles (c + j)) = true) →
    ∃ pre : List Event,
      _wait_loop env maxWait waited c fuel =
        ((_wait_loop env maxWait (waited + k) (c + k) (fuel - k)).1,
         (_wait_loop env maxWait (waited + k) (c + k) (fuel - k)).2.1,
         pre ++ (_wait_loop env maxWait (waited + k) (c + k) (fuel - k)).2.2) ∧
      pre.length = k := by
  intro k
  induction k with
  | zero =>
      intro fuel waited c hk hcont
      exact ⟨[], by simp, rfl⟩
  | succ n ih =>
      intro fuel waited c hk hcont
      obtain ⟨f, rfl⟩ : ∃ f, fuel = f + 1 := ⟨fuel - 1, by omega⟩
      have h0 := hcont 0 (by omega)
      rw [Nat.add_zero] at h0
      have hstep : _wait_loop env maxWait waited c (f + 1) =
          ((_wait_loop env maxWait (waited + 1) (c + 1) f).1,
           (_wait_loop env maxWait (waited + 1) (c + 1) f).2.1,
           Event.check (env.titles c) ::
             (_wait_loop env maxWait (waited + 1) (c + 1) f).2.2) := by
        conv_lhs => rw [_wait_loop]
        rw [h0.1, h0.2]
        simp
      obtain ⟨pre, hpre, hlen⟩ := ih f (waited + 1) (c + 1) (by omega)
        (fun j hj => by
          have := hcont (j + 1) (by omega)
          have harith : c + (j + 1) = c + 1 + j := by omega
          rw [harith] at this
          exact this)
      refine ⟨Event.check (env.titles c) :: pre, ?_, by simp [hlen]⟩
      have e1 : waited + 1 + n = waited + (n + 1) := by omega
      have e2 : c + 1 + n = c + (n + 1) := by omega
      have e3 : f - n = f + 1 - (n + 1) := by omega
      rw [hstep, hpre, e1, e2, e3]
      simp

/-- C3: the completion wait polls the title once per second up to
`max_wait` (default 120).  If the first poll observing anything other
than continue-polling ("Export" present, "Save" absent) is poll `k`
(0-indexed) and it observes "Save", the wait fails immediately at that
poll with the `saveStillOpen` error naming `k+1` seconds, having read
exactly `k+1` titles; if poll `k` observes a title with neither "Save"
nor "Export", the wait returns success at that poll; and if all
`max_wait` polls observe "Export" still open, one final read decides: a
title still containing "Save" or "Export" yields the timeout error. -/
theorem c3_completion_poll_behaviour (env : Env) (maxWait : Nat) :
    (∀ k, k < maxWait →
      (∀ j, j < k → hasSave (env.titles j) = false ∧ hasExport (env.titles j) = true) →
      hasSave (env.titles k) = true →
      (_wait_for_export_completion env 0 maxWait).1 =
          Except.error (GuiErr.saveStillOpen (k + 1)) ∧
      (_wait_for_export_completion env 0 maxWait).2.2.length = k + 1) ∧
    (∀ k, k < maxWait →
      (∀ j, j < k → hasSave (env.titles j) = false ∧ hasExport (env.titles j) = true) →
      hasSave (env.titles k) = false → hasExport (env.titles k) = false →
      (_wait_for_export_completion env 0 maxWait).1 = Except.ok ()) ∧
    ((∀ j, j < maxWait → hasSave (env.titles j) = false ∧ hasExport (env.titles j) = true) →
      (hasSave (env.titles maxWait) = true ∨ hasExport (env.titles maxWait) = true) →
      (_wait_for_export_completion env 0 maxWait).1 =
          Except.error (GuiErr.exportTimedOut maxWait (env.titles maxWait))) := by
  refine ⟨?_, ?_, ?_⟩
  · intro k hk hcont hsv
    obtain ⟨pre, hpre, hlen⟩ := wait_loop_shift env maxWait k maxWait 0 0 (by omega)
      (fun j hj => by simpa using hcont j hj)
    obtain ⟨f, hf⟩ : ∃ f, maxWait - k = f + 1 := ⟨maxWait - k - 1, by omega⟩
    have hstep : _wait_loop env maxWait (0 + k) (0 + k) (maxWait - k) =
        (Except.error (GuiErr.saveStillOpen (0 + k + 1)), 0 + k + 1,
         [Event.check (env.titles (0 + k))]) := by
      rw [hf]
      unfold _wait_loop
      dsimp only
      simp only [Nat.zero_add, hsv]
      simp
    unfold _wait_for_export_completion
    rw [hpre, hstep]
    simp [hlen]
  · intro k hk hcont hsv hex
    obtain ⟨pre, hpre, hlen⟩ := wait_loop_shift env maxWait k maxWait 0 0 (by omega)
      (fun j hj => by simpa using hcont j hj)
    obtain ⟨f, hf⟩ : ∃ f, maxWait - k = f + 1 := ⟨maxWait - k - 1, by omega⟩
    have hstep : (_wait_loop env maxWait (0 + k) (0 + k) (maxWait - k)).1 =
        Except.ok () := by
      rw [hf]
      unfold _wait_loop
      dsimp only
      simp only [Nat.zero_add, hsv, hex]
      simp
    unfold _wait_for_export_completion
    rw [hpre]
    simpa using hstep
  · intro hcont hlast
    obtain ⟨pre, hpre, hlen⟩ := wait_loop_shift env maxWait maxWait maxWait 0 0
      (le_refl maxWait) (fun j hj => by simpa using hcont j hj)
    have hstep : (_wait_loop env maxWait (0 + maxWait) (0 + maxWait) (maxWait - maxWait)).1 =
        Except.error (GuiErr.exportTimedOut maxWait (env.titles (0 + maxWait))) := by
      rw [Nat.sub_self]
      unfold _wait_loop
      dsimp only
      simp only [Nat.zero_add]
      rw [if_pos hlast]
    unfold _wait_for_export_completion
    rw [hpre]
    simp only [Nat.zero_add] at hstep ⊢
    simpa using hstep

/-- A fixed GUI environment skeleton for concrete evaluations. -/
def baseEnv (ts : Nat → Str) : Env :=
  { activateOk := fun _ => true
    frontApp := fun _ => "Live".data
    openOk := true
    titles := ts
    confirmOk := false
    confirmText := []
    quartzOk := true
    sliderRead := none }

/-- Environment whose title reads are: poll 0 sees the Export dialog,
every later read sees the Save dialog. -/
def waitEnvW : Env :=
  baseEnv (fun n => if n = 0 then "Export Audio/Video".data else "Save".data)

theorem c3_completion_poll_behaviour_witness :
    (1 < 3) ∧ hasSave (waitEnvW.titles 1) = true ∧
    (_wait_for_export_completion waitEnvW 0 3).1 =
        Except.error (GuiErr.saveStillOpen 2) ∧
    (_wait_for_export_completion waitEnvW 0 3).2.2.length = 2 := by
  have h := (c3_completion_poll_behaviour waitEnvW 3).1 1 (by omega)
    (fun j hj => by
      have hj0 : j = 0 := by omega
      subst hj0
      exact ⟨by decide, by decide⟩)
    (by decide)
  exact ⟨by omega, by decide, h.1, h.2⟩

theorem countEscapes_append (xs ys : List Event) :
    countEscapes (xs ++ ys) = countEscapes xs + countEscapes ys := by
  induction xs with
  | nil => simp [countEscapes]
  | cons e rest ih =>
      cases e <;> simp [countEscapes, ih]
      omega

/-- Number of `activate_ableton()` calls in a trace. -/
def countActivates : List Event → Nat
  | [] => 0
  | Event.activate :: tr => countActivates tr + 1
  | _ :: tr => countActivates tr

theorem activate_loop_succ_live (env : Env) (a r : Nat)
    (h1 : env.activateOk a = true) (h2 : env.frontApp a = "Live".data) :
    _activate_loop env a (r + 1) =
      (Except.ok (), a + 1, [Event.activate, Event.checkApp "Live".data]) := by
  conv_lhs => rw [_activate_loop]
  rw [h1, h2]
  simp

theorem open_dialog_mismatch (env : Env) (c : Nat) (h3 : env.openOk = true)
    (h4 : hasExport (env.titles c) = false) :
    _open_and_verify_export_dialog env c =
      (Except.error (GuiErr.expectedExportDialog (env.titles c)), c + 1,
       [Event.keyCombo "cmd-shift-r".data, Event.check (env.titles c),
        Event.escape, Event.escape, Event.escape]) := by
  unfold _open_and_verify_export_dialog
  dsimp only
  rw [h3, h4]
  simp

/-- C4 (amended): when the verification gate directly after opening the
export dialog observes a title without "Export", the export returns a
failed outcome whose message is the `DialogVerificationError` text naming
the observed title, and in total exactly 6 escape presses are issued
before the outcome is returned: `_abort_and_escape()` (3 presses) runs
once at the gate before the exception is raised and once more in the
top-level handler of `safe_export_with_filename`. -/
theorem c4_unexpected_dialog_six_escapes (env : Env) (fn : Str) (folder : Option Str)
    (h1 : env.activateOk 0 = true) (h2 : env.frontApp 0 = "Live".data)
    (h3 : env.openOk = true) (h4 : hasExport (env.titles 0) = false) :
    (safe_export_with_filename env fn folder).1 =
      (false, errMsg (GuiErr.expectedExportDialog (env.titles 0))) ∧
    env.titles 0 <:+: (safe_export_with_filename env fn folder).1.2 ∧
    countEscapes (safe_export_with_filename env fn folder).2 = 6 := by
  have hact : _activate_and_verify env 0 =
      (Except.ok (), 1, [Event.activate, Event.checkApp "Live".data]) :=
    activate_loop_succ_live env 0 4 h1 h2
  have hopen := open_dialog_mismatch env 0 h3 h4
  have hres : safe_export_with_filename env fn folder =
      ((false, errMsg (GuiErr.expectedExportDialog (env.titles 0))),
       ([Event.activate, Event.checkApp "Live".data] ++
        [Event.keyCombo "cmd-shift-r".data, Event.check (env.titles 0),
         Event.escape, Event.escape, Event.escape]) ++
       [Event.escape, Event.escape, Event.escape]) := by
    unfold safe_export_with_filename safe_export_body
    rw [hact]
    dsimp only
    rw [hopen]
  refine ⟨by rw [hres], ?_, ?_⟩
  · rw [hres]
    refine ⟨"Expected Export dialog, found: ".data ++ [squo], [squo], ?_⟩
    simp [errMsg]
  · rw [hres]
    rw [countEscapes_append, countEscapes_append]
    rfl

/-- Environment for concrete C4 runs: every window title reads back as
"Browser" (a title that is neither a Save nor an Export dialog). -/
def env4c : Env := baseEnv (fun _ => "Browser".data)

/-- C4 counterexample: with the gate after opening the export dialog
observing the title "Browser", the export fails with the message naming
that title, but the number of escape/dismiss presses issued is 6, not 3
as the claim states. -/
theorem c4_counterexample_three_escapes :
    (safe_export_with_filename env4c "track".data none).1 =
      (false, errMsg (GuiErr.expectedExportDialog "Browser".data)) ∧
    countEscapes (safe_export_with_filename env4c "track".data none).2 = 6 ∧
    ¬ countEscapes (safe_export_with_filename env4c "track".data none).2 = 3 := by
  refine ⟨by decide, by decide, by decide⟩

/-- Witness for C4: concrete run of the amended theorem. -/
theorem c4_unexpected_dialog_six_escapes_witness :
    (env4c.activateOk 0 = true ∧ env4c.frontApp 0 = "Live".data ∧
     env4c.openOk = true ∧ hasExport (env4c.titles 0) = false) ∧
    ((safe_export_with_filename env4c "track".data none).1 =
      (false, errMsg (GuiErr.expectedExportDialog (env4c.titles 0))) ∧
     env4c.titles 0 <:+: (safe_export_with_filename env4c "track".data none).1.2 ∧
     countEscapes (safe_export_with_filename env4c "track".data none).2 = 6) :=
  ⟨⟨rfl, rfl, rfl, by decide⟩,
   c4_unexpected_dialog_six_escapes env4c "track".data none rfl rfl rfl (by decide)⟩

/-- C7: `select_all_and_delete` is permanently disabled: it raises a
RuntimeError (whose message says it is disabled and can delete tracks)
and issues no keystroke or other automation event whatsoever. -/
theorem c7_select_all_and_delete_always_raises :
    select_all_and_delete.2 = [] ∧
    select_all_and_delete.1 =
      Except.error (PyExc.runtimeError selectAllDisabledMsg) ∧
    "disabled".data <:+: selectAllDisabledMsg ∧
    "delete tracks".data <:+: selectAllDisabledMsg :=
  ⟨rfl, rfl, by decide, by decide⟩

theorem activate_loop_exhausted (env : Env) :
    ∀ r a, (∀ k, k < r → env.activateOk (a + k) = true ∧
                         env.frontApp (a + k) ≠ "Live".data) →
    (_activate_loop env a r).1 = Except.ok () ∧
    countActivates (_activate_loop env a r).2.2 = r := by
  intro r
  induction r with
  | zero => intro a _; exact ⟨rfl, rfl⟩
  | succ n ih =>
      intro a h
      have h0 := h 0 (by omega)
      rw [Nat.add_zero] at h0
      have hstep : _activate_loop env a (n + 1) =
          ((_activate_loop env (a + 1) n).1, (_activate_loop env (a + 1) n).2.1,
           Event.activate :: Event.checkApp (env.frontApp a) ::
             (_activate_loop env (a + 1) n).2.2) := by
        conv_lhs => rw [_activate_loop]
        rw [h0.1, if_neg (by simp), if_neg h0.2]
      have hrec := ih (a + 1) (fun k hk => by
        have := h (k + 1) (by omega)
        have harith : a + (k + 1) = a + 1 + k := by omega
        rw [harith] at this
        exact this)
      rw [hstep]
      refine ⟨hrec.1, ?_⟩
      show countActivates (Event.activate :: Event.checkApp (env.frontApp a) ::
        (_activate_loop env (a + 1) n).2.2) = n + 1
      simp [countActivates, hrec.2]

theorem activate_loop_fail_surfaces (env : Env) :
    ∀ j r a, j < r →
    (∀ k, k < j → env.activateOk (a + k) = true ∧
                  env.frontApp (a + k) ≠ "Live".data) →
    env.activateOk (a + j) = false →
    (_activate_loop env a r).1 = Except.error GuiErr.activationFailed := by
  intro j
  induction j with
  | zero =>
      intro r a hr _ hfail
      obtain ⟨r1, rfl⟩ : ∃ r1, r = r1 + 1 := ⟨r - 1, by omega⟩
      rw [Nat.add_zero] at hfail
      conv_lhs => rw [_activate_loop]
      rw [hfail]
      simp
  | succ n ih =>
      intro r a hr hskip hfail
      obtain ⟨r1, rfl⟩ : ∃ r1, r = r1 + 1 := ⟨r - 1, by omega⟩
      have h0 := hskip 0 (by omega)
      rw [Nat.add_zero] at h0
      have hstep : (_activate_loop env a (r1 + 1)).1 = (_activate_loop env (a + 1) r1).1 := by
        conv_lhs => rw [_activate_loop]
        rw [h0.1, if_neg (by simp), if_neg h0.2]
      rw [hstep]
      refine ih r1 (a + 1) (by omega) (fun k hk => ?_) ?_
      · have := hskip (k + 1) (by omega)
        have harith : a + (k + 1) = a + 1 + k := by omega
        rw [harith] at this
        exact this
      · have harith : a + (n + 1) = a + 1 + n := by omega
        rw [harith] at hfail
        exact hfail

/-- C8 (amended): activation is retried up to 5 times with short backoff.
If the `activate_ableton()` call itself fails at some attempt, an
`AbletonActivationError` is surfaced at once and the export entry point
returns a failure outcome.  But when every activation call succeeds and
the application merely can never be verified as frontmost, all 5
attempts are consumed and the function then returns normally with only a
printed warning — the export proceeds rather than failing. -/
theorem c8_activation_retry_behaviour (env : Env) :
    ((∀ k, k < 5 → env.activateOk k = true ∧ env.frontApp k ≠ "Live".data) →
      (_activate_and_verify env 0).1 = Except.ok () ∧
      countActivates (_activate_and_verify env 0).2.2 = 5) ∧
    (∀ j, j < 5 →
      (∀ k, k < j → env.activateOk k = true ∧ env.frontApp k ≠ "Live".data) →
      env.activateOk j = false →
      (_activate_and_verify env 0).1 = Except.error GuiErr.activationFailed) ∧
    (∀ fn folder, (safe_export_body env fn folder).1 =
        Except.error GuiErr.activationFailed →
      (safe_export_with_filename env fn folder).1 =
        (false, errMsg GuiErr.activationFailed)) := by
  refine ⟨?_, ?_, ?_⟩
  · intro h
    exact activate_loop_exhausted env 5 0 (fun k hk => by simpa using h k hk)
  · intro j hj hskip hfail
    exact activate_loop_fail_surfaces env j 5 0 hj
      (fun k hk => by simpa using hskip k hk) (by simpa using hfail)
  · intro fn folder hbody
    unfold safe_export_with_filename
    rcases h : safe_export_body env fn folder with ⟨r, c', a', tr⟩
    rw [h] at hbody
    cases r with
    | ok u => exact absurd hbody (by simp)
    | error e =>
        have he : e = GuiErr.activationFailed := by
          simpa using hbody
        rw [he]

/-- Environment in which Ableton activates fine but is never seen
frontmost: the frontmost application always reads back as "Finder". -/
def env8c : Env :=
  { baseEnv (fun _ => "Export Audio/Video".data) with
      frontApp := fun _ => "Finder".data }

/-- C8 counterexample: with activation always succeeding but the
frontmost check always seeing "Finder", the retries are exhausted (5
activation attempts) and `_activate_and_verify` returns success — no
activation failure is surfaced to the caller, contradicting the claim
that after the retries the failure is surfaced and the export does not
proceed. -/
theorem c8_counterexample_proceeds_after_retries :
    (_activate_and_verify env8c 0).1 = Except.ok () ∧
    countActivates (_activate_and_verify env8c 0).2.2 = 5 ∧
    ¬ ∃ e, (_activate_and_verify env8c 0).1 = Except.error e := by
  refine ⟨rfl, by decide, ?_⟩
  rintro ⟨e, he⟩
  have h0 : (_activate_and_verify env8c 0).1 = Except.ok () := rfl
  rw [h0] at he
  exact Except.noConfusion he

/-- Environment in which the very first activation call fails. -/
def env8f : Env := { env8c with activateOk := fun _ => false }

/-- Witness for C8: the amended theorem applied to the two concrete
environments. -/
theorem c8_activation_retry_behaviour_witness :
    ((_activate_and_verify env8c 0).1 = Except.ok () ∧
     countActivates (_activate_and_verify env8c 0).2.2 = 5) ∧
    (_activate_and_verify env8f 0).1 = Except.error GuiErr.activationFailed ∧
    (safe_export_with_filename env8f "t".data none).1 =
      (false, errMsg GuiErr.activationFailed) :=
  ⟨(c8_activation_retry_behaviour env8c).1
      (fun k hk => ⟨rfl, by
        have hf : env8c.frontApp k = "Finder".data := rfl
        rw [hf]
        decide⟩),
   (c8_activation_retry_behaviour env8f).2.1 0 (by omega)
      (fun k hk => absurd hk (by omega)) rfl,
   (c8_activation_retry_behaviour env8f).2.2 "t".data none rfl⟩

/-- C6: the render-range round trip.  After typing the requested length
`N` and committing, the read-back value `v` is accepted iff
`|v - N| < 0.5`; within tolerance the function reports success naming
the verified value, outside tolerance it reports a failed outcome whose
message carries both the expected value `N` and the observed value `v`.
The gate `set_export_render_range` hands over to the click-based setter
exactly when the front window title contains "Export". -/
theorem c6_render_range_tolerance (env : Env) (sB lB : Int) (c : Nat) (v : Rat)
    (hq : env.quartzOk = true) (hs : env.sliderRead = some v) :
    (|v - (lB : Rat)| < 1/2 →
      (_set_render_range_via_clicks env sB lB c).1 = (true, RangeMsg.setOk v)) ∧
    (¬ |v - (lB : Rat)| < 1/2 →
      (_set_render_range_via_clicks env sB lB c).1 =
        (false, RangeMsg.notSetCorrectly lB v)) ∧
    (hasExport (env.titles c) = true →
      (set_export_render_range env sB lB c).1 =
        (_set_render_range_via_clicks env sB lB (c + 1)).1) := by
  refine ⟨?_, ?_, ?_⟩
  · intro h
    unfold _set_render_range_via_clicks
    rw [hq, hs]
    rw [if_neg (show ¬(true = false) by decide)]
    dsimp only
    rw [if_pos h]
  · intro h
    unfold _set_render_range_via_clicks
    rw [hq, hs]
    rw [if_neg (show ¬(true = false) by decide)]
    dsimp only
    rw [if_neg h]
  · intro hx
    unfold set_export_render_range
    dsimp only
    rw [hx]
    simp

/-- Environment whose slider reads back exactly the requested 8 bars. -/
def env6a : Env :=
  { baseEnv (fun _ => "Export Audio/Video".data) with sliderRead := some 8 }

/-- Environment whose slider reads back 11 when 8 bars were requested. -/
def env6b : Env :=
  { baseEnv (fun _ => "Export Audio/Video".data) with sliderRead := some 11 }

/-- Witness for C6: read-back 8 for request 8 succeeds; read-back 11 for
request 8 fails naming expected 8 and observed 11. -/
theorem c6_render_range_tolerance_witness :
    (|(8 : Rat) - ((8 : Int) : Rat)| < 1/2) ∧
    (_set_render_range_via_clicks env6a 1 8 0).1 = (true, RangeMsg.setOk 8) ∧
    (¬ |(11 : Rat) - ((8 : Int) : Rat)| < 1/2) ∧
    (_set_render_range_via_clicks env6b 1 8 0).1 =
      (false, RangeMsg.notSetCorrectly 8 11) :=
  ⟨by norm_num,
   (c6_render_range_tolerance env6a 1 8 0 8 rfl rfl).1 (by norm_num),
   by norm_num,
   (c6_render_range_tolerance env6b 1 8 0 11 rfl rfl).2.1 (by norm_num)⟩

/-- The `Clip` dataclass from osc_client.py. -/
structure Clip where
  name : Str
  start_time : Rat
  length : Rat
  deriving DecidableEq

/-- The subscript key `start_time` used by core.py. -/
def startTimeKey : Str := "start_time".data

/-- The subscript key `length` used by core.py. -/
def lengthKey : Str := "length".data

/-- Python subscript `clip[key]` on a `Clip` dataclass instance: the
dataclass defines no `__getitem__`, so every subscript raises TypeError
(`'Clip' object is not subscriptable`), whatever the key. -/
def Clip.getItem (_clip : Clip) (_key : Str) : Except PyExc Rat :=
  Except.error PyExc.typeError

/-- Oracle for the OSC layer (responses of the AbletonOSC queries) plus
the GUI environment used by the export path. -/
structure CoreEnv where
  /-- `client.test_connection()` -/
  connected : Bool
  /-- `/live/song/get/num_tracks` response -/
  trackCount : Int
  /-- `/live/track/get/name` responses -/
  trackName : Int → Str
  /-- `/live/track/get/mute` responses -/
  isMuted : Int → Bool
  /-- `/live/track/get/is_foldable` responses -/
  isFoldable : Int → Bool
  /-- `/live/track/get/is_grouped` responses -/
  isGrouped : Int → Bool
  /-- `get_track_group_track_index` result (None when response < 0) -/
  groupIdx : Int → Option Int
  /-- `arrangement_clips/name` response (None models a query timeout) -/
  clipNames : Int → Option (List Str)
  /-- `arrangement_clips/start_time` response -/
  clipStarts : Int → Option (List Rat)
  /-- `arrangement_clips/length` response -/
  clipLens : Int → Option (List Rat)
  /-- `get_tempo` response -/
  tempo : Rat
  /-- `int(time.time())` at the moment export_track builds a fallback name -/
  nowEpoch : Int
  /-- `parse_key_and_bpm`, the out-of-scope naming heuristic of core.py
  (spec section 1 treats it as an external collaborator); only its result
  is relevant to the export path -/
  parseKeyBpm : Str → Option Str × Option Int
  /-- the GUI environment consumed by `safe_export_with_filename` -/
  gui : Env

/-- `get_arrangement_clips` from osc_client.py: three parallel queries;
a falsy (timed-out or empty) response yields `[]`; otherwise the clip
data starts at index 1 (index 0 of each response is the track index),
with out-of-range entries defaulting to ""/0.0. -/
def get_arrangement_clips (ce : CoreEnv) (i : Int) : List Clip :=
  match ce.clipNames i, ce.clipStarts i, ce.clipLens i with
  | some ns, some ss, some ls =>
      if ns = [] ∨ ss = [] ∨ ls = [] then []
      else
        (List.range (ns.length - 1)).map (fun k =>
          { name := ns.getD (k + 1) []
            start_time := ss.getD (k + 1) 0
            length := ls.getD (k + 1) 0 })
  | _, _, _ => []

/-- `INVALID_FILENAME_CHARS` from gui_automation.py. -/
def INVALID_FILENAME_CHARS : Str := "<>:\"/\\|?*".data

/-- Python `str.strip()` (whitespace at both ends). -/
def pyStrip (s : Str) : Str :=
  ((s.dropWhile Char.isWhitespace).reverse.dropWhile Char.isWhitespace).reverse

/-- `sanitize_filename` from core.py: replace each invalid character by
an underscore, then strip. -/
def sanitize_filename (name : Str) : Str :=
  pyStrip (name.map (fun ch => if INVALID_FILENAME_CHARS.contains ch then '_' else ch))

/-- Decimal rendering of an Int (Python f-string `{n}`). -/
def intStr (n : Int) : Str := (toString n).data

/-- Python truthiness of an optional string (None and "" are falsy). -/
def pyTruthyStr : Option Str → Bool
  | none => false
  | some s => !s.isEmpty

/-- Python truthiness of an optional int (None and 0 are falsy). -/
def pyTruthyInt : Option Int → Bool
  | none => false
  | some n => !(n == 0)

/-- Python `a or b` for optional strings. -/
def pyOrStr (a b : Option Str) : Option Str := if pyTruthyStr a then a else b

/-- Python `a or b` for optional ints. -/
def pyOrInt (a b : Option Int) : Option Int := if pyTruthyInt a then a else b

/-- Python `int()` truncation toward zero of a rational. -/
def pyTrunc (q : Rat) : Int := Int.tdiv q.num (q.den : Int)

/-- Python `None` rendered inside an f-string. -/
def pyStrOfOpt : Option Str → Str
  | some s => s
  | none => "None".data

/-- `ExportInfo` dataclass from core.py. -/
structure ExportInfo where
  track_name : Str
  group_name : Option Str
  key : Option Str
  bpm : Option Int
  suggested_filename : Str
  deriving DecidableEq

/-- `"_".join(parts)`. -/
def joinUnderscore (parts : List Str) : Str := List.intercalate "_".data parts

/-- `get_track_export_info` from core.py: key/bpm from the containing
group's name, falling back to the track name, falling back (for bpm) to
the song tempo; the suggested filename joins the sanitised track name
with the truthy key/bpm parts. -/
def get_track_export_info (ce : CoreEnv) (i : Int) : Option ExportInfo :=
  if i < 0 ∨ ce.trackCount ≤ i then none
  else
    let track_name := ce.trackName i
    let gkb : Option Str × Option Str × Option Int :=
      if ce.isGrouped i then
        match ce.groupIdx i with
        | some gi =>
            let gname := ce.trackName gi
            let kb := ce.parseKeyBpm gname
            (some gname, kb.1, kb.2)
        | none => (none, none, none)
      else (none, none, none)
    let kb2 : Option Str × Option Int :=
      if pyTruthyStr gkb.2.1 = false ∨ pyTruthyInt gkb.2.2 = false then
        let tkb := ce.parseKeyBpm track_name
        (pyOrStr gkb.2.1 tkb.1, pyOrInt gkb.2.2 tkb.2)
      else (gkb.2.1, gkb.2.2)
    let bpm1 := if pyTruthyInt kb2.2 = false then some (pyTrunc ce.tempo) else kb2.2
    let parts := [sanitize_filename track_name] ++
      (if pyTruthyStr kb2.1 then [kb2.1.getD []] else []) ++
      (if pyTruthyInt bpm1 then [intStr (bpm1.getD 0) ++ "bpm".data] else [])
    some { track_name := track_name
           group_name := gkb.1
           key := kb2.1
           bpm := bpm1
           suggested_filename := joinUnderscore parts }

/-- `ExportResult` dataclass from core.py. -/
structure ExportResult where
  success : Bool
  filename : Str
  message : Str
  deriving DecidableEq

/-- f-string `Invalid track index. Valid range: 0-{count-1}`. -/
def invalidIndexMsg (count : Int) : Str :=
  "Invalid track index. Valid range: 0-".data ++ intStr (count - 1)

/-- f-string `Exported '{track_name}' as {filename}.wav`. -/
def exportedMsg (trackName fn : Str) : Str :=
  "Exported ".data ++ squo :: (trackName ++ [squo]) ++ " as ".data ++
    fn ++ ".wav".data

/-- f-string `Export failed: {message}`. -/
def exportFailedMsg (m : Str) : Str := "Export failed: ".data ++ m

/-- The common tail of `export_track`: run the verified GUI export with
the resolved filename and wrap the outcome in an `ExportResult`. -/
def export_track_tail (ce : CoreEnv) (trackName : Str) (filename : Option Str)
    (outputFolder : Option Str) : ExportResult × List Event :=
  let fn := pyStrOfOpt filename
  let r := safe_export_with_filename ce.gui fn outputFolder
  if r.1.1 then
    ({ success := true, filename := fn ++ ".wav".data,
       message := exportedMsg trackName fn }, r.2)
  else
    ({ success := false, filename := fn, message := exportFailedMsg r.1.2 }, r.2)

/-- The filename-resolution step of `export_track` for a given track:
`if export_info and not filename: filename = export_info.suggested_filename`,
then select the track and run the tail. -/
def export_track_resolve (ce : CoreEnv) (i : Int) (customFilename : Option Str)
    (outputFolder : Option Str) : ExportResult × List Event :=
  let trackName := ce.trackName i
  let filename1 :=
    match get_track_export_info ce i with
    | some info =>
        if pyTruthyStr customFilename = false then some info.suggested_filename
        else customFilename
    | none => customFilename
  export_track_tail ce trackName filename1 outputFolder

/-- `export_track` from core.py.  With a track index: validate it, read
the clips and — when there is at least one clip — compute the loop range
from `clips[0]['start_time']` and `clips[-1][...]` (these dataclass
subscripts raise TypeError, which nothing in core.py catches), then
resolve the filename and run the verified export.  Without a track
index: fall back to an `export_{tempo}bpm_{time}` name when none was
given, and run the verified export directly. -/
def export_track (ce : CoreEnv) (trackIndex : Option Int)
    (outputFolder customFilename : Option Str) :
    Except PyExc (ExportResult × List Event) :=
  match trackIndex with
  | none =>
      let fn :=
        if pyTruthyStr customFilename then customFilename
        else some ("export_".data ++ intStr (pyTrunc ce.tempo) ++ "bpm_".data ++
                   intStr ce.nowEpoch)
      Except.ok (export_track_tail ce "unknown".data fn outputFolder)
  | some i =>
      if i < 0 ∨ ce.trackCount ≤ i then
        Except.ok ({ success := false, filename := [],
                     message := invalidIndexMsg ce.trackCount }, [])
      else
        match get_arrangement_clips ce i with
        | [] => Except.ok (export_track_resolve ce i customFilename outputFolder)
        | c0 :: rest => do
            let st ← c0.getItem startTimeKey
            let lastClip := (c0 :: rest).getLast (List.cons_ne_nil c0 rest)
            let l1 ← lastClip.getItem startTimeKey
            let l2 ← lastClip.getItem lengthKey
            let _length := l1 + l2 - st
            Except.ok (export_track_resolve ce i customFilename outputFolder)

/-- f-string `Track '{name}' has no arrangement clips to export`. -/
def noClipsMsg (name : Str) : Str :=
  "Track ".data ++ squo :: (name ++ [squo]) ++
    " has no arrangement clips to export".data

/-- Message of the success path of `prepare_track_for_export`.  This path
is unreachable (the dataclass subscripts raise TypeError first); the
Python `:.1f` float formatting is approximated by the exact rational
rendering. -/
def preparedMsg (name : Str) (st en dur : Rat) : Str :=
  "Prepared ".data ++ squo :: (name ++ [squo]) ++ " for export: ".data ++
    (toString st).data ++ " - ".data ++ (toString en).data ++ " beats (".data ++
    (toString dur).data ++ " seconds)".data

/-- `prepare_track_for_export` from core.py: validate the index, require
at least one arrangement clip, then compute the loop range from
`clips[0]['start_time']` and `clips[-1][...]` (dataclass subscripts that
raise TypeError). -/
def prepare_track_for_export (ce : CoreEnv) (i : Int) : Except PyExc (Bool × Str) :=
  if i < 0 ∨ ce.trackCount ≤ i then
    Except.ok (false, invalidIndexMsg ce.trackCount)
  else
    let name := ce.trackName i
    match get_arrangement_clips ce i with
    | [] => Except.ok (false, noClipsMsg name)
    | c0 :: rest => do
        let st ← c0.getItem startTimeKey
        let lastClip := (c0 :: rest).getLast (List.cons_ne_nil c0 rest)
        let l1 ← lastClip.getItem startTimeKey
        let l2 ← lastClip.getItem lengthKey
        let en := l1 + l2
        let len := en - st
        let durationSec := (len / ce.tempo) * 60
        Except.ok (true, preparedMsg name st en durationSec)

/-- `TrackType` from core.py. -/
inductive TrackType where
  | track
  | group
  deriving DecidableEq

/-- `TrackInfo` dataclass from core.py. -/
structure TrackInfo where
  index : Int
  name : Str
  track_type : TrackType
  muted : Bool
  clip_count : Nat
  audio_start : Option Rat
  audio_end : Option Rat
  deriving DecidableEq

/-- `get_track_details` from core.py: None for an invalid index; with
clips present, `audio_start`/`audio_end` come from the dataclass
subscripts `clips[0]['start_time']` etc., which raise TypeError. -/
def get_track_details (ce : CoreEnv) (i : Int) : Except PyExc (Option TrackInfo) :=
  if i < 0 ∨ ce.trackCount ≤ i then Except.ok none
  else
    let name := ce.trackName i
    let is_group := ce.isFoldable i
    let muted := ce.isMuted i
    match get_arrangement_clips ce i with
    | [] =>
        Except.ok (some { index := i, name := name
                          track_type := if is_group then TrackType.group else TrackType.track
                          muted := muted, clip_count := 0
                          audio_start := none, audio_end := none })
    | c0 :: rest => do
        let ast ← c0.getItem startTimeKey
        let lastClip := (c0 :: rest).getLast (List.cons_ne_nil c0 rest)
        let l1 ← lastClip.getItem startTimeKey
        let l2 ← lastClip.getItem lengthKey
        Except.ok (some { index := i, name := name
                          track_type := if is_group then TrackType.group else TrackType.track
                          muted := muted, clip_count := (c0 :: rest).length
                          audio_start := some ast, audio_end := some (l1 + l2) })

/-- `AudioRange` dataclass from core.py. -/
structure AudioRange where
  start_beats : Rat
  end_beats : Rat
  length_beats : Rat
  duration_seconds : Rat
  start_bar : Int
  length_bars : Int
  deriving DecidableEq

/-- `min` against Python's `float('inf')` initial accumulator. -/
def qMinInf : Option Rat → Rat → Rat
  | none, x => x
  | some m, x => min m x

/-- The track scan of `get_arrangement_audio_range`: skip muted tracks
and group tracks; for a track with clips, read the clip range through
the dataclass subscripts (raising TypeError) and fold it into the
accumulators. -/
def audio_range_loop (ce : CoreEnv) :
    Nat → Nat → Bool → Option Rat → Rat → Except PyExc (Bool × Option Rat × Rat)
  | _idx, 0, hasC, earliest, latest => Except.ok (hasC, earliest, latest)
  | idx, remaining + 1, hasC, earliest, latest =>
      if ce.isMuted (idx : Int) then
        audio_range_loop ce (idx + 1) remaining hasC earliest latest
      else if ce.isFoldable (idx : Int) then
        audio_range_loop ce (idx + 1) remaining hasC earliest latest
      else
        match get_arrangement_clips ce (idx : Int) with
        | [] => audio_range_loop ce (idx + 1) remaining hasC earliest latest
        | c0 :: rest => do
            let tstart ← c0.getItem startTimeKey
            let lastClip := (c0 :: rest).getLast (List.cons_ne_nil c0 rest)
            let l1 ← lastClip.getItem startTimeKey
            let l2 ← lastClip.getItem lengthKey
            let tend := l1 + l2
            audio_range_loop ce (idx + 1) remaining true
              (some (qMinInf earliest tstart)) (max latest tend)

/-- `get_arrangement_audio_range` from core.py: scan all tracks; when no
clip-bearing track was seen return None; otherwise derive the beats and
bar numbers (the `earliest.getD 0` covers the `float('inf')` start that
cannot survive a successful scan). -/
def get_arrangement_audio_range (ce : CoreEnv) : Except PyExc (Option AudioRange) :=
  if ce.trackCount = 0 then Except.ok none
  else do
    let r ← audio_range_loop ce 0 ce.trackCount.toNat false none 0
    if r.1 = false then Except.ok none
    else
      let earliest := r.2.1.getD 0
      let latest := r.2.2
      let length_beats := latest - earliest
      let duration_seconds := (length_beats / ce.tempo) * 60
      let start_bar := pyTrunc (earliest / 4) + 1
      let length_bars := pyTrunc ((length_beats + 4 - 1) / 4)
      Except.ok (some { start_beats := earliest, end_beats := latest
                        length_beats := length_beats
                        duration_seconds := duration_seconds
                        start_bar := start_bar, length_bars := length_bars })

theorem export_track_clips_type_error (ce : CoreEnv) (i : Int) (c0 : Clip)
    (rest : List Clip) (folder custf : Option Str)
    (hi : 0 ≤ i) (hc : i < ce.trackCount)
    (hclips : get_arrangement_clips ce i = c0 :: rest) :
    export_track ce (some i) folder custf = Except.error PyExc.typeError := by
  unfold export_track
  dsimp only
  rw [if_neg (show ¬(i < 0 ∨ ce.trackCount ≤ i) by omega), hclips]
  rfl

theorem prepare_track_clips_type_error (ce : CoreEnv) (i : Int) (c0 : Clip)
    (rest : List Clip) (hi : 0 ≤ i) (hc : i < ce.trackCount)
    (hclips : get_arrangement_clips ce i = c0 :: rest) :
    prepare_track_for_export ce i = Except.error PyExc.typeError := by
  unfold prepare_track_for_export
  dsimp only
  rw [if_neg (show ¬(i < 0 ∨ ce.trackCount ≤ i) by omega), hclips]
  rfl

theorem track_details_clips_type_error (ce : CoreEnv) (i : Int) (c0 : Clip)
    (rest : List Clip) (hi : 0 ≤ i) (hc : i < ce.trackCount)
    (hclips : get_arrangement_clips ce i = c0 :: rest) :
    get_track_details ce i = Except.error PyExc.typeError := by
  unfold get_track_details
  dsimp only
  rw [if_neg (show ¬(i < 0 ∨ ce.trackCount ≤ i) by omega), hclips]
  rfl

theorem audio_range_loop_skip (ce : CoreEnv) :
    ∀ d idx rem hasC earliest latest, d ≤ rem →
    (∀ j : Nat, idx ≤ j → j < idx + d →
      ce.isMuted (j : Int) = true ∨ ce.isFoldable (j : Int) = true ∨
      get_arrangement_clips ce (j : Int) = []) →
    audio_range_loop ce idx rem hasC earliest latest =
      audio_range_loop ce (idx + d) (rem - d) hasC earliest latest := by
  intro d
  induction d with
  | zero => intro idx rem hasC earliest latest _ _; simp
  | succ n ih =>
      intro idx rem hasC earliest latest hd hskip
      obtain ⟨r1, rfl⟩ : ∃ r1, rem = r1 + 1 := ⟨rem - 1, by omega⟩
      have h0 := hskip idx (le_refl idx) (by omega)
      have hstep : audio_range_loop ce idx (r1 + 1) hasC earliest latest =
          audio_range_loop ce (idx + 1) r1 hasC earliest latest := by
        conv_lhs => rw [audio_range_loop]
        rcases h0 with h | h | h
        · rw [h]
          simp
        · rw [h]
          simp
        · rw [h]
          split
          · rfl
          · split
            · rfl
            · rfl
      rw [hstep, ih (idx + 1) r1 hasC earliest latest (by omega)
        (fun j hj1 hj2 => hskip j (by omega) (by omega))]
      have e1 : idx + 1 + n = idx + (n + 1) := by omega
      have e2 : r1 - n = r1 + 1 - (n + 1) := by omega
      rw [e1, e2]

theorem audio_range_type_error (ce : CoreEnv) (i : Nat) (c0 : Clip)
    (rest : List Clip) (hc : (i : Int) < ce.trackCount)
    (hnm : ce.isMuted (i : Int) = false) (hnf : ce.isFoldable (i : Int) = false)
    (hclips : get_arrangement_clips ce (i : Int) = c0 :: rest)
    (hprev : ∀ j : Nat, j < i →
      ce.isMuted (j : Int) = true ∨ ce.isFoldable (j : Int) = true ∨
      get_arrangement_clips ce (j : Int) = []) :
    get_arrangement_audio_range ce = Except.error PyExc.typeError := by
  have hcount : ce.trackCount ≠ 0 := by omega
  have hlt : i < ce.trackCount.toNat := by omega
  unfold get_arrangement_audio_range
  rw [if_neg hcount]
  have hskip := audio_range_loop_skip ce i 0 ce.trackCount.toNat false none 0
    (by omega) (fun j hj1 hj2 => hprev j (by omega))
  rw [Nat.zero_add] at hskip
  obtain ⟨r1, hr1⟩ : ∃ r1, ce.trackCount.toNat - i = r1 + 1 :=
    ⟨ce.trackCount.toNat - i - 1, by omega⟩
  have hloop : audio_range_loop ce 0 ce.trackCount.toNat false none 0 =
      Except.error PyExc.typeError := by
    rw [hskip, hr1]
    conv_lhs => rw [audio_range_loop]
    rw [hnm, hnf]
    simp only [Bool.false_eq_true, if_false]
    rw [hclips]
    rfl
  rw [hloop]
  rfl

/-- C9: `get_arrangement_clips` returns `Clip` dataclass instances, which
do not support dict-style subscripting; hence for every valid track index
whose clip list is non-empty, `prepare_track_for_export`, `export_track`
and `get_track_details` raise TypeError at `clips[0]['start_time']`
instead of returning a result, and `get_arrangement_audio_range` raises a
TypeError as soon as its scan reaches the first clip-bearing track. -/
theorem c9_clip_subscript_type_error (ce : CoreEnv) (i : Nat) (c0 : Clip)
    (rest : List Clip) (folder custf : Option Str)
    (hc : (i : Int) < ce.trackCount)
    (hclips : get_arrangement_clips ce (i : Int) = c0 :: rest)
    (hnm : ce.isMuted (i : Int) = false) (hnf : ce.isFoldable (i : Int) = false)
    (hprev : ∀ j : Nat, j < i →
      ce.isMuted (j : Int) = true ∨ ce.isFoldable (j : Int) = true ∨
      get_arrangement_clips ce (j : Int) = []) :
    prepare_track_for_export ce (i : Int) = Except.error PyExc.typeError ∧
    export_track ce (some (i : Int)) folder custf = Except.error PyExc.typeError ∧
    get_track_details ce (i : Int) = Except.error PyExc.typeError ∧
    get_arrangement_audio_range ce = Except.error PyExc.typeError :=
  ⟨prepare_track_clips_type_error ce i c0 rest (by omega) hc hclips,
   export_track_clips_type_error ce i c0 rest folder custf (by omega) hc hclips,
   track_details_clips_type_error ce i c0 rest (by omega) hc hclips,
   audio_range_type_error ce i c0 rest hc hnm hnf hclips hprev⟩

/-- A one-track environment whose single track has one arrangement clip
(start 4.0, length 8.0) and a GUI that reads back empty titles. -/
def ceW : CoreEnv :=
  { connected := true
    trackCount := 1
    trackName := fun _ => "Bass".data
    isMuted := fun _ => false
    isFoldable := fun _ => false
    isGrouped := fun _ => false
    groupIdx := fun _ => none
    clipNames := fun _ => some ["0".data, "clip1".data]
    clipStarts := fun _ => some [0, 4]
    clipLens := fun _ => some [0, 8]
    tempo := 120
    nowEpoch := 1700000000
    parseKeyBpm := fun _ => (none, none)
    gui := baseEnv (fun _ => []) }

/-- Witness for C9: the concrete one-clip environment. -/
theorem c9_clip_subscript_type_error_witness :
    ((0 : Int) < ceW.trackCount ∧
     get_arrangement_clips ceW 0 =
       [{ name := "clip1".data, start_time := 4, length := 8 }]) ∧
    prepare_track_for_export ceW 0 = Except.error PyExc.typeError ∧
    export_track ceW (some 0) none none = Except.error PyExc.typeError ∧
    get_track_details ceW 0 = Except.error PyExc.typeError ∧
    get_arrangement_audio_range ceW = Except.error PyExc.typeError := by
  have h := c9_clip_subscript_type_error ceW 0
    { name := "clip1".data, start_time := 4, length := 8 } [] none none
    (by decide) (by decide) rfl rfl (fun j hj => absurd hj (by omega))
  exact ⟨⟨by decide, by decide⟩, h.1, h.2.1, h.2.2.1, h.2.2.2⟩

/-- C5 counterexample: `export_track`, called on a valid track whose clip
list is non-empty, propagates an uncaught TypeError (from the dataclass
subscript `clips[0]['start_time']`) to its caller instead of returning a
structured failure result — so the claim that no exception escapes the
top-level export entry points is false for `export_track`. -/
theorem c5_counterexample_export_track_raises :
    export_track ceW (some 0) none (some "x".data) =
      Except.error PyExc.typeError := rfl

/-- C5 (amended): `safe_export_with_filename` never lets an exception
propagate: every exception its body raises is caught, translated to a
`(False, str(e))` result, and followed by the 3-escape abort path.
`export_track`, by contrast, propagates an uncaught TypeError whenever a
valid track index is given and the track has at least one arrangement
clip. -/
theorem c5_exceptions_caught_amended (env : Env) (fn : Str) (folder : Option Str)
    (e : GuiErr) (ce : CoreEnv) (i : Int) (c0 : Clip) (rest : List Clip)
    (ofolder custf : Option Str)
    (hbody : (safe_export_body env fn folder).1 = Except.error e)
    (hi : 0 ≤ i) (hc : i < ce.trackCount)
    (hclips : get_arrangement_clips ce i = c0 :: rest) :
    (safe_export_with_filename env fn folder).1 = (false, errMsg e) ∧
    countEscapes (safe_export_with_filename env fn folder).2 =
      countEscapes (safe_export_body env fn folder).2.2.2 + 3 ∧
    export_track ce (some i) ofolder custf = Except.error PyExc.typeError := by
  refine ⟨?_, ?_,
    export_track_clips_type_error ce i c0 rest ofolder custf hi hc hclips⟩
  · unfold safe_export_with_filename
    rcases h : safe_export_body env fn folder with ⟨r, c', a', tr⟩
    rw [h] at hbody
    cases r with
    | ok u => exact absurd hbody (by simp)
    | error e2 =>
        have he : e2 = e := by simpa using hbody
        rw [he]
  · unfold safe_export_with_filename
    rcases h : safe_export_body env fn folder with ⟨r, c', a', tr⟩
    rw [h] at hbody
    cases r with
    | ok u => exact absurd hbody (by simp)
    | error e2 =>
        show countEscapes (tr ++ [Event.escape, Event.escape, Event.escape]) =
          countEscapes tr + 3
        rw [countEscapes_append]
        rfl

/-- Witness for C5: the activation-failure environment for the caught
side, the one-clip environment for the propagating side. -/
theorem c5_exceptions_caught_amended_witness :
    ((safe_export_body env8f "t".data none).1 =
        Except.error GuiErr.activationFailed ∧
     (0 : Int) ≤ 0 ∧ (0 : Int) < ceW.trackCount ∧
     get_arrangement_clips ceW 0 =
       [{ name := "clip1".data, start_time := 4, length := 8 }]) ∧
    ((safe_export_with_filename env8f "t".data none).1 =
        (false, errMsg GuiErr.activationFailed) ∧
     countEscapes (safe_export_with_filename env8f "t".data none).2 =
        countEscapes (safe_export_body env8f "t".data none).2.2.2 + 3 ∧
     export_track ceW (some 0) none (some "y".data) =
        Except.error PyExc.typeError) :=
  ⟨⟨rfl, by omega, by decide, by decide⟩,
   c5_exceptions_caught_amended env8f "t".data none GuiErr.activationFailed
     ceW 0 { name := "clip1".data, start_time := 4, length := 8 } []
     none (some "y".data) rfl (by omega) (by decide) rfl⟩

/-- `CliEnv`: arguments and host facts consumed by `cmd_export`. -/
structure CliEnv where
  /-- `platform.system() == "Darwin"` -/
  isDarwin : Bool
  /-- the OSC/GUI environment behind `get_osc_client()` -/
  ce : CoreEnv
  /-- `--track` -/
  track : Option Int
  /-- `--output` -/
  output : Option Str
  /-- `--filename` -/
  filenameArg : Option Str

/-- Exit code constants from cli.py. -/
def EXIT_SUCCESS : Int := 0

/-- Generic error exit code from cli.py. -/
def EXIT_ERROR : Int := 1

/-- Connectivity-failure exit code from cli.py. -/
def EXIT_CONNECTION_FAILED : Int := 2

/-- `cmd_export` from cli.py: a non-macOS host fails immediately with
EXIT_ERROR before anything else; a failed connection check returns
EXIT_CONNECTION_FAILED; otherwise the export result's success flag picks
EXIT_SUCCESS or EXIT_ERROR. -/
def cmd_export (cli : CliEnv) : Except PyExc Int :=
  if cli.isDarwin = false then Except.ok EXIT_ERROR
  else if cli.ce.connected = false then Except.ok EXIT_CONNECTION_FAILED
  else do
    let r ← export_track cli.ce cli.track cli.output cli.filenameArg
    Except.ok (if r.1.success then EXIT_SUCCESS else EXIT_ERROR)

/-- C10: exit codes of the CLI export subcommand: 1 immediately on a
non-macOS host (before the connection check), 2 when the connection
check fails, and — whenever the export returns an outcome — 0 on a
successful export and 1 on a failed one. -/
theorem c10_cmd_export_exit_codes (cli : CliEnv) :
    (cli.isDarwin = false → cmd_export cli = Except.ok 1) ∧
    (cli.isDarwin = true → cli.ce.connected = false → cmd_export cli = Except.ok 2) ∧
    (∀ r, cli.isDarwin = true → cli.ce.connected = true →
      export_track cli.ce cli.track cli.output cli.filenameArg = Except.ok r →
      cmd_export cli = Except.ok (if r.1.success then 0 else 1)) := by
  refine ⟨?_, ?_, ?_⟩
  · intro h
    unfold cmd_export
    rw [h]
    rfl
  · intro h1 h2
    unfold cmd_export
    rw [h1, h2]
    rfl
  · intro r h1 h2 hexp
    unfold cmd_export
    rw [h1, h2, hexp]
    rfl

/-- CLI environment on a non-macOS host. -/
def cliA : CliEnv :=
  { isDarwin := false, ce := ceW, track := none, output := none,
    filenameArg := some "x".data }

/-- CLI environment with the connection check failing. -/
def cliB : CliEnv :=
  { cliA with isDarwin := true, ce := { ceW with connected := false } }

/-- CLI environment that reaches the export and fails it (activation
always fails in the GUI environment). -/
def cliC : CliEnv :=
  { cliA with isDarwin := true, ce := { ceW with gui := env8f } }

/-- Witness for C10: the three exit codes on concrete environments. -/
theorem c10_cmd_export_exit_codes_witness :
    cmd_export cliA = Except.ok 1 ∧
    cmd_export cliB = Except.ok 2 ∧
    export_track cliC.ce cliC.track cliC.output cliC.filenameArg =
      Except.ok ({ success := false, filename := "x".data,
                   message := exportFailedMsg (errMsg GuiErr.activationFailed) },
                 [Event.activate, Event.escape, Event.escape, Event.escape]) ∧
    cmd_export cliC = Except.ok 1 :=
  ⟨(c10_cmd_export_exit_codes cliA).1 rfl,
   (c10_cmd_export_exit_codes cliB).2.1 rfl rfl,
   rfl,
   (c10_cmd_export_exit_codes cliC).2.2
     ({ success := false, filename := "x".data,
        message := exportFailedMsg (errMsg GuiErr.activationFailed) },
      [Event.activate, Event.escape, Event.escape, Event.escape]) rfl rfl rfl⟩
